import Mathlib

/-!
# The browser client `app/static/script.js`

A shallow embedding of the script: the page (DOM text fields, the two
section visibility flags, the two rendered lists), the persisted token and
the module variable `mode` form one explicit `State`; every handler is a
function on that state.  An `async` handler is split at its single
suspension point into the part that runs up to the `fetch` call and the
part that runs once the outcome of the request is known.  Every `fetch`
call is appended to `State.requests`, so "which request was issued" is an
observable of the model.
-/

namespace ArgApi

/-! ## JavaScript values -/

/-- A primitive JavaScript value.  A number is modelled by an integer, which
stands for the integers a double holds exactly and JavaScript prints in
decimal digits (magnitude below `1e21`), or is `NaN`; other numbers have no
value here. -/
inductive Prim where
  | undefined
  | null
  | bool (b : Bool)
  | num (n : Int)
  | nan
  | str (s : String)
  deriving DecidableEq, Repr

/-- A flat object: its own properties, in insertion order, each key once. -/
abbrev Obj := List (String × Prim)

/-- A parsed JSON body: a primitive, a flat record, or an array of flat
records (the shapes the consumed API exchanges). -/
inductive Json where
  | prim (p : Prim)
  | obj (o : Obj)
  | arr (items : List Obj)
  deriving DecidableEq, Repr

/-- JavaScript truthiness, as tested by `if (x)`, `x ? a : b` and `x || y`. -/
def Prim.truthy : Prim → Bool
  | .undefined => false
  | .null => false
  | .bool b => b
  | .num n => n != 0
  | .nan => false
  | .str s => s != ""

/-- String conversion, as performed by a template literal `${x}`: for a
number, its decimal digits, as JavaScript prints the integers the model
admits. -/
def Prim.toStr : Prim → String
  | .undefined => "undefined"
  | .null => "null"
  | .bool true => "true"
  | .bool false => "false"
  | .num n => toString n
  | .nan => "NaN"
  | .str s => s

/-- Property read `o.k` on a flat object: `undefined` when `k` is missing. -/
def Obj.get (o : Obj) (k : String) : Prim :=
  (o.lookup k).getD .undefined

/-- Truthiness of a value that is a string or absent (`null`/`undefined`). -/
def truthy : Option String → Bool
  | none => false
  | some s => s != ""

/-! ## `URLSearchParams` -/

/-- Upper-case hexadecimal digit of a nibble. -/
def hexDigit (n : Nat) : Char :=
  ['0', '1', '2', '3', '4', '5', '6', '7', '8', '9', 'A', 'B', 'C', 'D', 'E', 'F'].getD n '0'

/-- The UTF-8 bytes of a code point. -/
def utf8Bytes (c : Nat) : List Nat :=
  if c < 0x80 then [c]
  else if c < 0x800 then [0xC0 + c / 64, 0x80 + c % 64]
  else if c < 0x10000 then [0xE0 + c / 4096, 0x80 + c / 64 % 64, 0x80 + c % 64]
  else [0xF0 + c / 262144, 0x80 + c / 4096 % 64, 0x80 + c / 64 % 64, 0x80 + c % 64]

/-- Percent-encoding of one byte: `%` and two upper-case hexadecimal digits. -/
def percentByte (b : Nat) : List Char :=
  ['%', hexDigit (b / 16), hexDigit (b % 16)]

/-- Code points the `application/x-www-form-urlencoded` serializer leaves as
they are: ASCII letters and digits and `*`, `-`, `.`, `_`. -/
def formSafe (c : Char) : Bool :=
  c.isAlphanum || c == '*' || c == '-' || c == '.' || c == '_'

/-- Form encoding of one code point: a space becomes `+`, a safe code point
stays, every byte of anything else is percent-encoded. -/
def formEncodeChar (c : Char) : List Char :=
  if c = ' ' then ['+']
  else if formSafe c then [c]
  else (utf8Bytes c.toNat).flatMap percentByte

/-- Form encoding of a string, on lists of code points. -/
def formEncodeChars (cs : List Char) : List Char :=
  cs.flatMap formEncodeChar

/-- Form encoding of a name or a value of a `URLSearchParams` entry. -/
def formEncode (s : String) : String :=
  ⟨formEncodeChars s.data⟩

/-- A `URLSearchParams` object: its name-value entries in insertion order
(`append` adds at the end). -/
abbrev Params := List (String × String)

/-- The text of one entry, `name=value`. -/
def paramText (p : String × String) : String :=
  formEncode p.1 ++ "=" ++ formEncode p.2

/-- The method `URLSearchParams.prototype.toString`: the entries joined by `&`. -/
def Params.serialize : Params → String
  | [] => ""
  | [p] => paramText p
  | p :: ps => paramText p ++ "&" ++ Params.serialize ps

/-! ## Reading a URL back

Observers used to state what a requested URL carries; the script itself
never parses a URL. -/

/-- The pieces of a text between the occurrences of a separator. -/
def splitOnChar (sep : Char) : List Char → List (List Char)
  | [] => [[]]
  | c :: cs =>
    if c = sep then [] :: splitOnChar sep cs
    else
      match splitOnChar sep cs with
      | [] => [[c]]
      | piece :: pieces => (c :: piece) :: pieces

/-- The query of a URL: what follows its first `?`, if it has one. -/
def urlQuery : List Char → Option (List Char)
  | [] => none
  | c :: cs => if c = '?' then some cs else urlQuery cs

/-- One `name=value` piece of a query, cut at its first `=`. -/
def queryEntry (piece : List Char) : String × String :=
  (⟨piece.takeWhile (· ≠ '=')⟩, ⟨(piece.dropWhile (· ≠ '=')).drop 1⟩)

/-- The entries of the query of a URL, names and values still encoded, in
the order they stand in the URL; a URL without `?` has none. -/
def queryEntries (url : String) : List (String × String) :=
  match urlQuery url.data with
  | none => []
  | some q => (splitOnChar '&' q).map queryEntry

/-- The values, in order, of the entries of the query that are named `name`. -/
def queryValues (url : String) (name : String) : List String :=
  ((queryEntries url).filter (fun e => e.1 == name)).map (·.2)

/-! ## Requests and responses -/

/-- The body handed to `fetch`: an object passed through unchanged, the
`JSON.stringify` text of an object, or a `URLSearchParams` form. -/
inductive Body where
  | object (o : Obj)
  | jsonText (o : Obj)
  | form (fields : Params)
  deriving DecidableEq, Repr

/-- One `fetch(url, init)` call: the URL and the fields of `init`. -/
structure Request where
  url : String
  method : Option String
  headers : List (String × String)
  body : Option Body
  deriving DecidableEq, Repr

/-- The HTTP method of a request: `fetch` defaults to `GET`. -/
def Request.httpMethod (r : Request) : String :=
  r.method.getD "GET"

/-- A response as the script reads it: the status, the status text, the body
read as text (`res.text()`) and the body read as JSON (`res.json()`, which
rejects with the parser's message when the body is not JSON). -/
structure Response where
  status : Nat
  statusText : String
  text : String
  json : Except String Json

/-- The property `res.ok`: the status is in the range 200 to 299. -/
def Response.ok (r : Response) : Bool :=
  decide (200 ≤ r.status) && decide (r.status ≤ 299)

/-- How a `fetch` call ends: the promise rejects (network failure) with an
error carrying a message, or it resolves with a response. -/
inductive FetchOutcome where
  | networkError (message : String)
  | response (r : Response)

/-- The second argument of `api`. -/
structure Opts where
  method : Option String := none
  headers : Option (List (String × String)) := none
  body : Option Obj := none

/-! ## The page -/

/-- What a click on a button of a rendered entry requests before it reloads
the list. -/
inductive Click where
  | deleteBook (url : String)
  | completeTask (url : String)
  | deleteTask (url : String)
  deriving DecidableEq, Repr

/-- A rendered `li`: its class name, the markup assigned to `innerHTML`, and
the click handlers installed, each with the button it sits on. -/
structure Entry where
  className : String
  innerHTML : String
  handlers : List (String × Click)
  deriving DecidableEq, Repr

/-- The state the script reads and writes. -/
structure State where
  /-- the module variable `mode` -/
  mode : String
  /-- the value stored under `"token"` in local storage, `none` when the key is absent -/
  token : Option String
  /-- whether the class list of `auth-section` contains `hidden` -/
  authHidden : Bool
  /-- whether the class list of `app-section` contains `hidden` -/
  appHidden : Bool
  authTitle : String
  authButton : String
  /-- the text of the link inside `toggle-auth` -/
  toggleLink : String
  authError : String
  bookError : String
  bookList : List Entry
  nameFilter : String
  authorFilter : String
  publisherFilter : String
  taskError : String
  taskList : List Entry
  taskTitleFilter : String
  taskStatusFilter : String
  /-- every `fetch` call made so far, oldest first -/
  requests : List Request

/-- The parts of the JavaScript engine and of the DOM the script relies on
without defining them: whether `li.querySelector(selector)` finds an element
once the given markup has been assigned to `li.innerHTML`, and the messages
of the `TypeError`s the engine throws: on setting a property of `null`, on
destructuring `null` or `undefined` (given which of the two it is), and on
iterating a value that is not iterable (given the name of the variable that
holds it). -/
structure Engine where
  querySelector : String → String → Bool
  cannotSetProperty : String
  cannotDestructure : String → String
  notIterable : String → String

/-! ## Helpers -/

def showAuth (visible : Bool) (s : State) : State :=
  { s with authHidden := !visible, appHidden := visible }

def getToken (s : State) : Option String :=
  s.token

def setToken (token : String) (s : State) : State :=
  { s with token := some token }

def clearToken (s : State) : State :=
  { s with token := none }

/-! ## The generic API caller -/

/-- The object `headers` built by `api`. -/
def apiHeaders (path : String) (s : State) : List (String × String) :=
  let headers : List (String × String) := []
  let headers := if path ≠ "/login" then headers ++ [("Content-Type", "application/json")] else headers
  let token := getToken s
  if truthy token then headers ++ [("Authorization", "Bearer " ++ token.getD "")] else headers

/-- The `fetch` call made by `api(path, opts)`: `{ ...opts, headers, body }`. -/
def apiRequest (path : String) (opts : Opts) (s : State) : Request :=
  let headers := apiHeaders path s
  let body : Option Body :=
    match opts.body with
    | none => none
    | some o =>
      if headers.lookup "Content-Type" = some "application/json" then some (.jsonText o)
      else some (.object o)
  { url := path, method := opts.method, headers := headers, body := body }

/-- What `api` makes of the outcome of its `fetch` call: the value it returns
or the message of the error it throws. -/
def apiResult (out : FetchOutcome) : Except String Json :=
  match out with
  | .networkError m => .error m
  | .response res =>
    if !res.ok then
      let text := res.text
      .error (if text ≠ "" then text else res.statusText)
    else if res.status = 204 then .ok (.prim .null)
    else res.json

/-! ## Auth -/

/-- The `fetch` call of the login branch: form-urlencoded credentials. -/
def loginRequest (username password : String) : Request :=
  { url := "/login"
    method := some "POST"
    headers := [("Content-Type", "application/x-www-form-urlencoded")]
    body := some (.form [("username", username), ("password", password)]) }

/-- The destructuring `const { access_token } = value`: a `TypeError` on
`null` and `undefined`, the property (or `undefined`) otherwise. -/
def destructureAccessToken (eng : Engine) : Json → Except String Prim
  | .prim .null => .error (eng.cannotDestructure "null")
  | .prim .undefined => .error (eng.cannotDestructure "undefined")
  | .obj o => .ok (o.get "access_token")
  | _ => .ok .undefined

/-- The value a `for (const x of name)` loop runs over, `name` being the
variable iterated: the elements of an array, one string per code point of a
string (every property the script reads on such a string is `undefined`, as
on the empty record), and a `TypeError` for anything else. -/
def iterate (eng : Engine) (name : String) : Json → Except String (List Obj)
  | .arr items => .ok items
  | .prim (.str s) => .ok (s.data.map fun _ => [])
  | _ => .error (eng.notIterable name)

/-! ## Books -/

/-- The argument of `loadBooks`; a missing property is `none`. -/
structure BookFilters where
  name : Option String := none
  author : Option String := none
  publisher : Option String := none

def getBookFilters (s : State) : BookFilters :=
  { name := some s.nameFilter
    author := some s.authorFilter
    publisher := some s.publisherFilter }

/-- The `URLSearchParams` object `loadBooks` builds. -/
def bookParams (filters : BookFilters) : Params :=
  let params : Params := []
  let params := if truthy filters.name then params ++ [("name", filters.name.getD "")] else params
  let params := if truthy filters.author then params ++ [("author", filters.author.getD "")] else params
  if truthy filters.publisher then params ++ [("publisher", filters.publisher.getD "")] else params

/-- The URL `loadBooks` requests. -/
def booksUrl (filters : BookFilters) : String :=
  let url := "/books/"
  let params := bookParams filters
  if params.serialize ≠ "" then url ++ "?" ++ params.serialize else url

/-- The markup `loadBooks` assigns to the `innerHTML` of the entry of `b`. -/
def bookMarkup (b : Obj) : String :=
  "\n        <div>\n          <strong>" ++ (b.get "book_name").toStr ++ "</strong> by "
    ++ (b.get "author").toStr
    ++ "\n          <br>\n          <small>Publisher: " ++ (b.get "publisher").toStr
    ++ " | Pages: " ++ (b.get "pages").toStr ++ "</small>\n          "
    ++ (if (b.get "description").truthy then "<p>" ++ (b.get "description").toStr ++ "</p>" else "")
    ++ "\n        </div>\n      "

/-- The entry `loadBooks` appends for `b`: the markup and a created `Delete`
button. -/
def bookEntry (b : Obj) : Entry :=
  { className := ""
    innerHTML := bookMarkup b
    handlers := [("Delete", .deleteBook ("/books/" ++ (b.get "id").toStr))] }

/-- The function `loadBooks` up to its suspension: clear the error and the
list, call `api(url)`. -/
def loadBooksStart (filters : BookFilters) (s : State) : State :=
  let s := { s with bookError := "" }
  let s := { s with bookList := [] }
  { s with requests := s.requests ++ [apiRequest (booksUrl filters) {} s] }

/-- The function `loadBooks` from the outcome of its request on: render the
items, or show the message of whatever was thrown. -/
def loadBooksDone (eng : Engine) (out : FetchOutcome) (s : State) : State :=
  match apiResult out with
  | .error m => { s with bookError := m }
  | .ok books =>
    match iterate eng "books" books with
    | .error m => { s with bookError := m }
    | .ok items => items.foldl (fun st b => { st with bookList := st.bookList ++ [bookEntry b] }) s

/-- A call of `loadBooks` that runs from start to end with nothing in between. -/
def loadBooks (eng : Engine) (filters : BookFilters) (out : FetchOutcome) (s : State) : State :=
  loadBooksDone eng out (loadBooksStart filters s)

/-- The submit handler of `book-form` up to its suspension.  The fields of
the form are its arguments; `pages` is the value of the unary plus. -/
def bookSubmitStart (book_name author publisher : String) (pages : Prim) (description : String)
    (s : State) : State :=
  let s := { s with bookError := "" }
  let book : Obj :=
    [("book_name", .str book_name), ("author", .str author), ("publisher", .str publisher),
     ("pages", pages), ("description", .str description)]
  { s with requests := s.requests ++ [apiRequest "/books/" { method := some "POST", body := some book } s] }

/-- The submit handler of `book-form` from the outcome of the POST on.
The call `bookForm.reset()` touches only the fields of the create form, which
the state does not hold. -/
def bookSubmitDone (out : FetchOutcome) (s : State) : State :=
  match apiResult out with
  | .error m => { s with bookError := m }
  | .ok _ => loadBooksStart (getBookFilters s) s

def applyBookFilters (s : State) : State :=
  loadBooksStart (getBookFilters s) s

def clearBookFilters (s : State) : State :=
  let s := { s with nameFilter := "" }
  let s := { s with authorFilter := "" }
  let s := { s with publisherFilter := "" }
  loadBooksStart {} s

/-! ## Tasks -/

/-- The argument of `loadTasks`; a missing property is `none`. -/
structure TaskFilters where
  title : Option String := none
  completed : Option Bool := none

def getTaskFilters (s : State) : TaskFilters :=
  let filters : TaskFilters := { title := some s.taskTitleFilter }
  let status := s.taskStatusFilter
  if status = "true" ∨ status = "false" then
    { filters with completed := some (status == "true") }
  else filters

/-- The `URLSearchParams` object `loadTasks` builds. -/
def taskParams (filters : TaskFilters) : Params :=
  let params : Params := []
  let params := if truthy filters.title then params ++ [("title", filters.title.getD "")] else params
  match filters.completed with
  | some c => params ++ [("completed", (Prim.bool c).toStr)]
  | none => params

/-- The URL `loadTasks` requests. -/
def tasksUrl (filters : TaskFilters) : String :=
  let url := "/tasks/"
  let params := taskParams filters
  if params.serialize ≠ "" then url ++ "?" ++ params.serialize else url

/-- The markup `loadTasks` assigns to the `innerHTML` of the entry of `t`. -/
def taskMarkup (t : Obj) : String :=
  "\n        <h3>" ++ (t.get "title").toStr ++ "</h3>\n        "
    ++ (if (t.get "description").truthy then "<p>" ++ (t.get "description").toStr ++ "</p>" else "")
    ++ "\n        <div class=\"task-actions\">\n          <button class=\"complete-task\" data-id=\""
    ++ (t.get "id").toStr ++ "\">\n            "
    ++ (if (t.get "completed").truthy then "Completed" else "Complete")
    ++ "\n          </button>\n          <button class=\"delete-task\" data-id=\""
    ++ (t.get "id").toStr ++ "\">Delete</button>\n        </div>\n      "

/-- The entry `loadTasks` appends for `t` once both buttons were found. -/
def taskEntry (t : Obj) : Entry :=
  { className := if (t.get "completed").truthy then "task-completed" else ""
    innerHTML := taskMarkup t
    handlers :=
      [(".complete-task", .completeTask ("/tasks/" ++ (t.get "id").toStr ++ "/complete")),
       (".delete-task", .deleteTask ("/tasks/" ++ (t.get "id").toStr))] }

/-- The loop of `loadTasks`.  For each item the two buttons are looked up in
the entry's own markup; assigning `onclick` on a button that was not found
throws, which leaves the loop with the entries appended so far.  The result
is the state reached and the message thrown, if any. -/
def renderTasks (eng : Engine) : List Obj → State → State × Option String
  | [], s => (s, none)
  | t :: rest, s =>
    if !eng.querySelector (taskMarkup t) ".complete-task" then (s, some eng.cannotSetProperty)
    else if !eng.querySelector (taskMarkup t) ".delete-task" then (s, some eng.cannotSetProperty)
    else renderTasks eng rest { s with taskList := s.taskList ++ [taskEntry t] }

/-- The function `loadTasks` up to its suspension. -/
def loadTasksStart (filters : TaskFilters) (s : State) : State :=
  let s := { s with taskError := "" }
  let s := { s with taskList := [] }
  { s with requests := s.requests ++ [apiRequest (tasksUrl filters) {} s] }

/-- The function `loadTasks` from the outcome of its request on. -/
def loadTasksDone (eng : Engine) (out : FetchOutcome) (s : State) : State :=
  match apiResult out with
  | .error m => { s with taskError := m }
  | .ok tasks =>
    match iterate eng "tasks" tasks with
    | .error m => { s with taskError := m }
    | .ok items =>
      match renderTasks eng items s with
      | (s, none) => s
      | (s, some m) => { s with taskError := m }

/-- A call of `loadTasks` that runs from start to end with nothing in between. -/
def loadTasks (eng : Engine) (filters : TaskFilters) (out : FetchOutcome) (s : State) : State :=
  loadTasksDone eng out (loadTasksStart filters s)

/-- The submit handler of `task-form` up to its suspension.  The values of
the two input fields are its arguments. -/
def taskSubmitStart (title description : String) (s : State) : State :=
  let s := { s with taskError := "" }
  let task : Obj :=
    [("title", .str title), ("description", .str description), ("completed", .bool false)]
  { s with requests := s.requests ++ [apiRequest "/tasks/" { method := some "POST", body := some task } s] }

/-- The submit handler of `task-form` from the outcome of the POST on. -/
def taskSubmitDone (out : FetchOutcome) (s : State) : State :=
  match apiResult out with
  | .error m => { s with taskError := m }
  | .ok _ => loadTasksStart (getTaskFilters s) s

def applyTaskFilters (s : State) : State :=
  loadTasksStart (getTaskFilters s) s

def clearTaskFilters (s : State) : State :=
  let s := { s with taskTitleFilter := "" }
  let s := { s with taskStatusFilter := "" }
  loadTasksStart {} s

/-- The path a button of an entry requests and the method it uses. -/
def Click.request (c : Click) (s : State) : Request :=
  match c with
  | .deleteBook url => apiRequest url { method := some "DELETE" } s
  | .completeTask url => apiRequest url { method := some "POST" } s
  | .deleteTask url => apiRequest url { method := some "DELETE" } s

/-- An `onclick` handler of an entry up to its suspension. -/
def clickStart (c : Click) (s : State) : State :=
  { s with requests := s.requests ++ [c.request s] }

/-- An `onclick` handler of an entry from the outcome of its request on. -/
def clickDone (c : Click) (out : FetchOutcome) (s : State) : State :=
  match c, apiResult out with
  | .deleteBook _, .ok _ => loadBooksStart (getBookFilters s) s
  | .deleteBook _, .error m => { s with bookError := m }
  | _, .ok _ => loadTasksStart (getTaskFilters s) s
  | _, .error m => { s with taskError := m }

/-! ## Auth handlers, logout, initialisation -/

/-- The submit handler of `auth-form` up to its suspension: the branch is
chosen by `mode` here.  The values of the two input fields are its
arguments. -/
def authSubmitStart (username password : String) (s : State) : State :=
  let s := { s with authError := "" }
  if s.mode = "login" then
    { s with requests := s.requests ++ [loginRequest username password] }
  else
    let body : Obj := [("username", .str username), ("password", .str password)]
    { s with requests := s.requests ++ [apiRequest "/register" { method := some "POST", body := some body } s] }

/-- The login branch from the outcome of its request on. -/
def loginDone (eng : Engine) (out : FetchOutcome) (s : State) : State :=
  match out with
  | .networkError m => { s with authError := m }
  | .response res =>
    if !res.ok then { s with authError := res.text }
    else
      match res.json with
      | .error m => { s with authError := m }
      | .ok value =>
        match destructureAccessToken eng value with
        | .error m => { s with authError := m }
        | .ok access_token =>
          let s := setToken access_token.toStr s
          let s := showAuth false s
          let s := loadBooksStart {} s
          loadTasksStart {} s

/-- The register branch from the outcome of its request on. -/
def registerDone (out : FetchOutcome) (s : State) : State :=
  match apiResult out with
  | .error m => { s with authError := m }
  | .ok _ =>
    let s := { s with mode := "login" }
    let s := { s with authTitle := "Login" }
    let s := { s with authButton := "Login" }
    { s with authError := "Registered! Please log in." }

/-- The click handler of `toggle-auth`. -/
def toggleAuthClick (s : State) : State :=
  let s := { s with mode := if s.mode = "login" then "register" else "login" }
  let s := { s with authTitle := if s.mode = "login" then "Login" else "Register" }
  let s := { s with authButton := if s.mode = "login" then "Login" else "Sign Up" }
  { s with toggleLink := if s.mode = "login" then "Register" else "Login" }

/-- The click handler of `logout`. -/
def logout (s : State) : State :=
  showAuth true (clearToken s)

/-- The statements at the end of the script, run once when the page loads. -/
def init (s : State) : State :=
  if truthy (getToken s) then
    let s := showAuth false s
    let s := loadBooksStart {} s
    loadTasksStart {} s
  else showAuth true s

/-- A submission of `auth-form` that runs from start to end with nothing in
between: the branch taken after the request is the one chosen before it. -/
def authSubmit (eng : Engine) (username password : String) (out : FetchOutcome)
    (s : State) : State :=
  if s.mode = "login" then loginDone eng out (authSubmitStart username password s)
  else registerDone out (authSubmitStart username password s)

/-- What can happen on the auth form: a click on the toggle, a submission,
and the arrival of the outcome of a login or of a registration request. -/
inductive AuthEvent where
  | toggle
  | submit (username password : String)
  | loginOutcome (out : FetchOutcome)
  | registerOutcome (out : FetchOutcome)

/-- The handler code an event runs. -/
def AuthEvent.step (eng : Engine) : AuthEvent → State → State
  | .toggle, s => toggleAuthClick s
  | .submit username password, s => authSubmitStart username password s
  | .loginOutcome out, s => loginDone eng out s
  | .registerOutcome out, s => registerDone out s

/-- The page after a sequence of events, oldest first. -/
def runAuth (eng : Engine) (events : List AuthEvent) (s : State) : State :=
  events.foldl (fun st e => e.step eng st) s

/-- The event is the arrival of a successful registration. -/
def AuthEvent.registered : AuthEvent → Bool
  | .registerOutcome out => (apiResult out).toBool
  | _ => false

/-- A request fails: the network fails, or the response has a non-success
status. -/
def FetchOutcome.failed : FetchOutcome → Bool
  | .networkError _ => true
  | .response res => !res.ok

/-- Both buttons of the entry of `t` are found in its markup. -/
def rendersTask (eng : Engine) (t : Obj) : Bool :=
  eng.querySelector (taskMarkup t) ".complete-task"
    && eng.querySelector (taskMarkup t) ".delete-task"

/-- Modelled from the spec: the static markup of the page is not part of
the sources.  The page as it is when the script starts, with a given content
of local storage: mode `login` with the labels the spec gives the initial
state, empty fields and lists, no request made yet.  (`init` sets the two
visibility flags whatever they were.) -/
def freshPage (token : Option String) : State :=
  { mode := "login"
    token := token
    authHidden := false
    appHidden := false
    authTitle := "Login"
    authButton := "Login"
    toggleLink := "Register"
    authError := ""
    bookError := ""
    bookList := []
    nameFilter := ""
    authorFilter := ""
    publisherFilter := ""
    taskError := ""
    taskList := []
    taskTitleFilter := ""
    taskStatusFilter := ""
    requests := [] }

/-- A success response carrying a JSON value. -/
def okResponse (text : String) (value : Json) : FetchOutcome :=
  .response { status := 200, statusText := "OK", text := text, json := .ok value }

/-- An engine whose lookups always find the button; its messages follow the
wording of V8. -/
def plainEngine : Engine :=
  { querySelector := fun _ _ => true
    cannotSetProperty := "Cannot set properties of null (setting 'onclick')"
    cannotDestructure := fun value =>
      "Cannot destructure property 'access_token' of '(intermediate value)' as it is "
        ++ value ++ "."
    notIterable := fun name => name ++ " is not iterable" }

/-- The page after a session in which the lists were loaded unfiltered and
the user then typed `Orwell` into the author filter without applying it, and
filled in and submitted the book form: `init` with a stored token, both
responses (empty arrays), the edit of the filter field, the submission. -/
def editedFilterSession : State :=
  bookSubmitStart "1984" "George Orwell" "Secker" (.num 328) ""
    { loadTasksDone plainEngine (okResponse "[]" (.arr []))
        (loadBooksDone plainEngine (okResponse "[]" (.arr []))
          (init (freshPage (some "t")))) with authorFilter := "Orwell" }

/-- The URLs of the loads of a panel among the requests made so far, oldest
first: the GET requests under the path of the panel's collection.  The last
one is the load the displayed list comes from, built from the filters that
load was given. -/
def loadUrls (path : String) (requests : List Request) : List String :=
  (requests.filter (fun r => r.httpMethod == "GET" && path.data.isPrefixOf r.url.data)).map (·.url)

/-- The page after a session in which the author filter `Orwell` was
applied, the displayed list came back for it, the user then erased the field
without applying, and filled in and submitted the book form. -/
def erasedFilterSession : State :=
  bookSubmitStart "Emma" "Jane Austen" "Murray" (.num 474) ""
    { loadBooksDone plainEngine (okResponse "[]" (.arr []))
        (applyBookFilters
          { loadTasksDone plainEngine (okResponse "[]" (.arr []))
              (loadBooksDone plainEngine (okResponse "[]" (.arr []))
                (init (freshPage (some "t")))) with authorFilter := "Orwell" })
      with authorFilter := "" }

/-- A character that is none of the separators `&`, `=`, `?` of a URL. -/
def urlPlain (c : Char) : Bool :=
  c != '&' && c != '=' && c != '?'

/-- A success response whose body is not JSON: reading it as JSON rejects. -/
def htmlResponse : Response :=
  { status := 200
    statusText := "OK"
    text := "<html></html>"
    json := .error "Unexpected token '<', \"<html></html>\" is not valid JSON" }

/-- The mode is one of the two, and the title and the button carry its labels. -/
def ModeLabels (s : State) : Prop :=
  (s.mode = "login" ∨ s.mode = "register")
  ∧ s.authTitle = (if s.mode = "login" then "Login" else "Register")
  ∧ s.authButton = (if s.mode = "login" then "Login" else "Sign Up")

/-- The toggle link carries the label of the mode. -/
def LinkLabel (s : State) : Prop :=
  s.toggleLink = (if s.mode = "login" then "Register" else "Login")

/-- A task whose title opens a comment: a well-formed task the task form can
create. -/
def commentTask : Obj :=
  [("id", .num 1), ("title", .str "<!--"), ("completed", .bool false)]

/-! ## Lemmas on form encoding and on reading a URL back -/

theorem getD_eq_or_mem {α : Type} (l : List α) (n : Nat) (d : α) :
    l.getD n d = d ∨ l.getD n d ∈ l := by
  induction l generalizing n with
  | nil => left; rfl
  | cons a l ih =>
    cases n with
    | zero => right; simp
    | succ n =>
      rcases ih n with h | h
      · left; simpa using h
      · right; simp only [List.getD_cons_succ]; exact List.mem_cons_of_mem _ h

theorem hexDigit_plain (n : Nat) : urlPlain (hexDigit n) = true := by
  have key : ∀ c ∈ ['0', '0', '1', '2', '3', '4', '5', '6', '7', '8', '9',
      'A', 'B', 'C', 'D', 'E', 'F'], urlPlain c = true := by decide
  apply key
  unfold hexDigit
  rcases getD_eq_or_mem ['0', '1', '2', '3', '4', '5', '6', '7', '8', '9',
      'A', 'B', 'C', 'D', 'E', 'F'] n '0' with h | h
  · rw [h]; simp
  · exact List.mem_cons_of_mem _ h

theorem formSafe_plain (c : Char) (h : formSafe c = true) : urlPlain c = true := by
  by_contra hc
  have : c = '&' ∨ c = '=' ∨ c = '?' := by
    simp only [urlPlain, Bool.and_eq_true, bne_iff_ne, ne_eq, not_and, Classical.not_not] at hc
    by_cases h1 : c = '&'
    · exact Or.inl h1
    · by_cases h2 : c = '='
      · exact Or.inr (Or.inl h2)
      · exact Or.inr (Or.inr (hc ⟨h1, h2⟩))
  rcases this with h' | h' | h' <;> subst h' <;> revert h <;> decide

theorem formEncodeChar_plain (x : Char) : ∀ c ∈ formEncodeChar x, urlPlain c = true := by
  intro c hc
  unfold formEncodeChar at hc
  split at hc
  · simp at hc; subst hc; decide
  · split at hc
    · rename_i hs
      simp at hc; subst hc; exact formSafe_plain _ hs
    · simp only [List.mem_flatMap, percentByte, List.mem_cons, List.mem_singleton,
        List.not_mem_nil, or_false] at hc
      obtain ⟨b, -, h | h | h⟩ := hc
      · subst h; decide
      · subst h; exact hexDigit_plain _
      · subst h; exact hexDigit_plain _

theorem formEncodeChars_plain (cs : List Char) : ∀ c ∈ formEncodeChars cs, urlPlain c = true := by
  intro c hc
  simp only [formEncodeChars, List.mem_flatMap] at hc
  obtain ⟨x, -, hx⟩ := hc
  exact formEncodeChar_plain x c hx

theorem splitOnChar_ne_nil (sep : Char) (l : List Char) : splitOnChar sep l ≠ [] := by
  induction l with
  | nil => simp [splitOnChar]
  | cons c cs ih =>
    unfold splitOnChar
    split
    · simp
    · split <;> simp

theorem splitOnChar_plain (sep : Char) (a : List Char) (ha : ∀ c ∈ a, c ≠ sep) :
    splitOnChar sep a = [a] := by
  induction a with
  | nil => rfl
  | cons c cs ih =>
    have hc : c ≠ sep := ha c (List.mem_cons_self _ _)
    have hcs : ∀ x ∈ cs, x ≠ sep := fun x hx => ha x (List.mem_cons_of_mem _ hx)
    simp [splitOnChar, hc, ih hcs]

theorem splitOnChar_append (sep : Char) (a b : List Char) (ha : ∀ c ∈ a, c ≠ sep) :
    splitOnChar sep (a ++ sep :: b) = a :: splitOnChar sep b := by
  induction a with
  | nil => simp [splitOnChar]
  | cons c cs ih =>
    have hc : c ≠ sep := ha c (List.mem_cons_self _ _)
    have hcs : ∀ x ∈ cs, x ≠ sep := fun x hx => ha x (List.mem_cons_of_mem _ hx)
    simp [splitOnChar, hc, ih hcs]

theorem takeWhile_upto (n v : List Char) (hn : ∀ c ∈ n, c ≠ '=') :
    (n ++ '=' :: v).takeWhile (· ≠ '=') = n := by
  induction n with
  | nil => simp [List.takeWhile]
  | cons c cs ih =>
    have hc : c ≠ '=' := hn c (List.mem_cons_self _ _)
    have hcs : ∀ x ∈ cs, x ≠ '=' := fun x hx => hn x (List.mem_cons_of_mem _ hx)
    simpa [List.takeWhile, hc] using ih hcs

theorem dropWhile_upto (n v : List Char) (hn : ∀ c ∈ n, c ≠ '=') :
    (n ++ '=' :: v).dropWhile (· ≠ '=') = '=' :: v := by
  induction n with
  | nil => simp [List.dropWhile]
  | cons c cs ih =>
    have hc : c ≠ '=' := hn c (List.mem_cons_self _ _)
    have hcs : ∀ x ∈ cs, x ≠ '=' := fun x hx => hn x (List.mem_cons_of_mem _ hx)
    simpa [List.dropWhile, hc] using ih hcs

theorem queryEntry_append (n v : List Char) (hn : ∀ c ∈ n, c ≠ '=') :
    queryEntry (n ++ '=' :: v) = (⟨n⟩, ⟨v⟩) := by
  unfold queryEntry
  rw [takeWhile_upto n v hn, dropWhile_upto n v hn]
  rfl

theorem urlQuery_append (a q : List Char) (ha : ∀ c ∈ a, c ≠ '?') :
    urlQuery (a ++ '?' :: q) = some q := by
  induction a with
  | nil => simp [urlQuery]
  | cons c cs ih =>
    have hc : c ≠ '?' := ha c (List.mem_cons_self _ _)
    have hcs : ∀ x ∈ cs, x ≠ '?' := fun x hx => ha x (List.mem_cons_of_mem _ hx)
    simp [urlQuery, hc, ih hcs]

theorem urlQuery_plain (a : List Char) (ha : ∀ c ∈ a, c ≠ '?') : urlQuery a = none := by
  induction a with
  | nil => rfl
  | cons c cs ih =>
    have hc : c ≠ '?' := ha c (List.mem_cons_self _ _)
    have hcs : ∀ x ∈ cs, x ≠ '?' := fun x hx => ha x (List.mem_cons_of_mem _ hx)
    simp [urlQuery, hc, ih hcs]

theorem plain_ne {c : Char} (h : urlPlain c = true) : c ≠ '&' ∧ c ≠ '=' ∧ c ≠ '?' := by
  simpa [urlPlain, and_assoc] using h

theorem paramText_data (p : String × String) :
    (paramText p).data = formEncodeChars p.1.data ++ '=' :: formEncodeChars p.2.data := by
  simp [paramText, formEncode, String.data_append]

theorem paramText_no_amp (p : String × String) : ∀ c ∈ (paramText p).data, c ≠ '&' := by
  intro c hc
  rw [paramText_data] at hc
  simp only [List.mem_append, List.mem_cons] at hc
  rcases hc with h | h | h
  · exact (plain_ne (formEncodeChars_plain _ c h)).1
  · subst h; decide
  · exact (plain_ne (formEncodeChars_plain _ c h)).1

theorem queryEntry_paramText (p : String × String) :
    queryEntry (paramText p).data = (formEncode p.1, formEncode p.2) := by
  rw [paramText_data, queryEntry_append]
  · rfl
  · intro c hc
    exact (plain_ne (formEncodeChars_plain _ c hc)).2.1

theorem serialize_cons_cons (p q : String × String) (ps : Params) :
    Params.serialize (p :: q :: ps) = paramText p ++ "&" ++ Params.serialize (q :: ps) := rfl

theorem split_serialize (p : String × String) (ps : Params) :
    (splitOnChar '&' (Params.serialize (p :: ps)).data).map queryEntry
      = (p :: ps).map (fun e => (formEncode e.1, formEncode e.2)) := by
  induction ps generalizing p with
  | nil =>
    simp only [Params.serialize, List.map_cons, List.map_nil]
    rw [splitOnChar_plain _ _ (paramText_no_amp p)]
    simp [queryEntry_paramText]
  | cons q ps ih =>
    rw [serialize_cons_cons]
    have : (paramText p ++ "&" ++ Params.serialize (q :: ps)).data
        = (paramText p).data ++ '&' :: (Params.serialize (q :: ps)).data := by
      simp [String.data_append]
    rw [this, splitOnChar_append _ _ _ (paramText_no_amp p)]
    simp only [List.map_cons, queryEntry_paramText]
    rw [ih q]
    simp

theorem serialize_ne_empty (p : String × String) (ps : Params) :
    Params.serialize (p :: ps) ≠ "" := by
  have hmem : '=' ∈ (Params.serialize (p :: ps)).data := by
    cases ps with
    | nil => simp [Params.serialize, paramText_data]
    | cons q ps => simp [serialize_cons_cons, String.data_append, paramText_data]
  intro h
  rw [h] at hmem
  simp at hmem

/-- Reading back a URL made of a path without `?`, a `?` and serialized
parameters gives the parameters, each name and value form-encoded. -/
theorem queryEntries_serialize (path : String) (hp : ∀ c ∈ path.data, c ≠ '?')
    (p : String × String) (ps : Params) :
    queryEntries (path ++ "?" ++ Params.serialize (p :: ps))
      = (p :: ps).map (fun e => (formEncode e.1, formEncode e.2)) := by
  have : (path ++ "?" ++ Params.serialize (p :: ps)).data
      = path.data ++ '?' :: (Params.serialize (p :: ps)).data := by
    simp [String.data_append]
  simp only [queryEntries, this, urlQuery_append _ _ hp]
  exact split_serialize p ps

theorem queryEntries_plain (path : String) (hp : ∀ c ∈ path.data, c ≠ '?') :
    queryEntries path = [] := by
  simp [queryEntries, urlQuery_plain _ hp]

/-- Serialized parameters at a concrete input: a space becomes `+`, the
separators inside a value are percent-encoded. -/
theorem tasksUrl_sample :
    tasksUrl { title := some "a b&completed=true", completed := some false }
      = "/tasks/?title=a+b%26completed%3Dtrue&completed=false"
    ∧ queryEntries "/tasks/?title=a+b%26completed%3Dtrue&completed=false"
      = [("title", "a+b%26completed%3Dtrue"), ("completed", "false")]
    ∧ formEncode "é~" = "%C3%A9%7E" := by
  decide

/-! ## The API caller: headers (C1) -/

/-- C1, counterexample: with the empty string stored as the token, a token
is present in the store, yet the request of `api` carries no `Authorization`
header: the script tests the token for truthiness, not for presence. -/
theorem api_headers_empty_token_counterexample :
    getToken (freshPage (some "")) = some "" ∧
    (apiRequest "/books/" {} (freshPage (some ""))).headers
      = [("Content-Type", "application/json")] := by
  decide

/-- C1, amended: the headers `api(path, opts)` passes to `fetch` are exactly
`Content-Type: application/json` when the path is not `/login`, followed by
`Authorization: Bearer <token>` when a non-empty token is stored; whatever
`opts` holds, no other header is sent. -/
theorem api_headers (path : String) (opts : Opts) (s : State) :
    (apiRequest path opts s).headers
        = (if path = "/login" then [] else [("Content-Type", "application/json")])
          ++ (match getToken s with
              | some t => if t = "" then [] else [("Authorization", "Bearer " ++ t)]
              | none => [])
    ∧ (("Content-Type", "application/json") ∈ (apiRequest path opts s).headers ↔ path ≠ "/login")
    ∧ (∀ v, ("Authorization", v) ∈ (apiRequest path opts s).headers
          ↔ ∃ t, getToken s = some t ∧ t ≠ "" ∧ v = "Bearer " ++ t)
    ∧ (∀ k v, (k, v) ∈ (apiRequest path opts s).headers
          → (k, v) = ("Content-Type", "application/json") ∨ k = "Authorization") := by
  have hs : (apiRequest path opts s).headers
        = (if path = "/login" then [] else [("Content-Type", "application/json")])
          ++ (match getToken s with
              | some t => if t = "" then [] else [("Authorization", "Bearer " ++ t)]
              | none => []) := by
    simp only [apiRequest, apiHeaders, getToken]
    cases ht : s.token with
    | none => by_cases hp : path = "/login" <;> simp [truthy, hp]
    | some t =>
      by_cases hp : path = "/login" <;> by_cases he : t = "" <;> simp [truthy, hp, he]
  refine ⟨hs, ?_, ?_, ?_⟩
  · rw [hs]
    cases ht : getToken s with
    | none => by_cases hp : path = "/login" <;> simp [hp]
    | some t => by_cases hp : path = "/login" <;> by_cases he : t = "" <;> simp [hp, he]
  · intro v
    rw [hs]
    cases ht : getToken s with
    | none => by_cases hp : path = "/login" <;> simp [hp]
    | some t =>
      by_cases hp : path = "/login" <;> by_cases he : t = "" <;> simp [hp, he]
  · intro k v hmem
    rw [hs, List.mem_append] at hmem
    rcases hmem with h | h
    · left
      by_cases hp : path = "/login"
      · simp [hp] at h
      · simpa [hp] using h
    · right
      cases ht : getToken s with
      | none => simp [ht] at h
      | some t =>
        by_cases he : t = ""
        · simp [ht, he] at h
        · simp only [ht, he, if_false, List.mem_singleton, Prod.mk.injEq] at h
          exact h.1

/-! ## The API caller: outcomes (C2) -/

/-- C2, counterexample: a response with success status 200, not 204, whose
body is not JSON.  The call of `api` neither returns `null` nor a parsed
body: it fails, and the message is neither the body text nor the status
text.  The three cases of the claim are not exhaustive. -/
theorem api_result_unparsable_counterexample :
    htmlResponse.ok = true ∧ htmlResponse.status ≠ 204 ∧
    apiResult (.response htmlResponse)
      = .error "Unexpected token '<', \"<html></html>\" is not valid JSON" ∧
    (∀ j, apiResult (.response htmlResponse) ≠ .ok j) := by
  refine ⟨by decide, by decide, rfl, ?_⟩
  intro j h
  simp [apiResult, htmlResponse, Response.ok] at h

/-- C2, amended: for every response received by `api`, exactly one of three
cases applies.  Non-success status: `api` fails with the body text, or with
the status text when the body text is empty.  Status 204: `api` returns
`null`.  Any other success status: `api` ends as reading the body as JSON
ends, returning the parsed body when it parses and failing with the parser's
error when it does not. -/
theorem api_result_cases (res : Response) :
    (res.ok = false →
      apiResult (.response res) = .error (if res.text = "" then res.statusText else res.text))
    ∧ (res.ok = true ∧ res.status = 204 → apiResult (.response res) = .ok (.prim .null))
    ∧ (res.ok = true ∧ res.status ≠ 204 →
        (∀ j, res.json = .ok j → apiResult (.response res) = .ok j)
        ∧ (∀ m, res.json = .error m → apiResult (.response res) = .error m))
    ∧ (res.ok = true ↔ 200 ≤ res.status ∧ res.status ≤ 299)
    ∧ (res.ok = false ∨ (res.ok = true ∧ res.status = 204) ∨ (res.ok = true ∧ res.status ≠ 204))
    ∧ ¬ (res.ok = false ∧ res.ok = true) ∧ ¬ (res.status = 204 ∧ res.status ≠ 204) := by
  refine ⟨?_, ?_, ?_, ?_, ?_, ?_, ?_⟩
  · intro h
    by_cases ht : res.text = "" <;> simp [apiResult, h, ht]
  · rintro ⟨h, h204⟩
    simp [apiResult, h, h204]
  · rintro ⟨h, h204⟩
    constructor
    · intro j hj
      simp [apiResult, h, h204, hj]
    · intro m hm
      simp [apiResult, h, h204, hm]
  · simp [Response.ok]
  · cases h : res.ok
    · exact Or.inl rfl
    · by_cases h204 : res.status = 204
      · exact Or.inr (Or.inl ⟨rfl, h204⟩)
      · exact Or.inr (Or.inr ⟨rfl, h204⟩)
  · rintro ⟨h1, h2⟩
    rw [h1] at h2
    exact Bool.noConfusion h2
  · rintro ⟨h1, h2⟩
    exact h2 h1

/-- C2, amended claim at three concrete responses: a 404 with an empty
body, a 204, and a 200 with a JSON body. -/
theorem api_result_cases_witness :
    apiResult (.response ⟨404, "Not Found", "", .error "Unexpected end of JSON input"⟩)
      = .error "Not Found"
    ∧ apiResult (.response ⟨204, "No Content", "", .error "Unexpected end of JSON input"⟩)
      = .ok (.prim .null)
    ∧ apiResult (.response ⟨200, "OK", "[]", .ok (.arr [])⟩) = .ok (.arr []) :=
  ⟨(api_result_cases ⟨404, "Not Found", "", .error "Unexpected end of JSON input"⟩).1 (by decide),
   (api_result_cases ⟨204, "No Content", "", .error "Unexpected end of JSON input"⟩).2.1
      ⟨by decide, rfl⟩,
   ((api_result_cases ⟨200, "OK", "[]", .ok (.arr [])⟩).2.2.1 ⟨by decide, by decide⟩).1 _ rfl⟩

/-! ## Query strings of the two loads (C3, C4) -/

theorem tasksPath_plain : ∀ c ∈ ("/tasks/" : String).data, c ≠ '?' := by decide

theorem booksPath_plain : ∀ c ∈ ("/books/" : String).data, c ≠ '?' := by decide

/-- The URL of a load: the bare path when there is no parameter, the path,
`?` and the serialized parameters otherwise. -/
theorem url_of_params (path : String) (ps : Params) :
    (if ps.serialize ≠ "" then path ++ "?" ++ ps.serialize else path)
      = if ps = [] then path else path ++ "?" ++ ps.serialize := by
  cases ps with
  | nil => simp [Params.serialize]
  | cons p ps => simp [serialize_ne_empty p ps]

theorem queryEntries_url (path : String) (hp : ∀ c ∈ path.data, c ≠ '?') (ps : Params) :
    queryEntries (if ps.serialize ≠ "" then path ++ "?" ++ ps.serialize else path)
      = ps.map (fun e => (formEncode e.1, formEncode e.2)) := by
  rw [url_of_params]
  cases ps with
  | nil => simpa using queryEntries_plain path hp
  | cons p ps => simpa using queryEntries_serialize path hp p ps

theorem taskParams_eq (filters : TaskFilters) :
    taskParams filters
      = (match filters.title with
          | some t => if t = "" then [] else [("title", t)]
          | none => [])
        ++ (match filters.completed with
            | some true => [("completed", "true")]
            | some false => [("completed", "false")]
            | none => []) := by
  unfold taskParams
  rcases filters with ⟨title, completed⟩
  rcases title with _ | t <;> rcases completed with _ | _ | _ <;>
    simp [truthy, Prim.toStr]

/-- C3: the request `loadTasks(getTaskFilters())` issues is for a URL whose
query has a `completed` entry exactly when the status selector is `"true"`
or `"false"`, once, with that same word as its value; for any other selector
value the URL has no `completed` entry.  The selection `"false"` is kept. -/
theorem loadTasks_completed_param (s : State) :
    (loadTasksStart (getTaskFilters s) s).requests
        = s.requests ++ [apiRequest (tasksUrl (getTaskFilters s)) {} s]
    ∧ (apiRequest (tasksUrl (getTaskFilters s)) {} s).url = tasksUrl (getTaskFilters s)
    ∧ queryValues (tasksUrl (getTaskFilters s)) "completed"
        = (if s.taskStatusFilter = "true" then ["true"]
           else if s.taskStatusFilter = "false" then ["false"]
           else [])
    ∧ ((taskParams (getTaskFilters s)).filter (fun e => e.1 == "completed")
        = (if s.taskStatusFilter = "true" then [("completed", "true")]
           else if s.taskStatusFilter = "false" then [("completed", "false")]
           else [])) := by
  refine ⟨rfl, rfl, ?_, ?_⟩
  · unfold queryValues tasksUrl
    simp only []
    rw [queryEntries_url _ tasksPath_plain, taskParams_eq]
    have e1 : formEncode "title" = "title" := by decide
    have e2 : formEncode "completed" = "completed" := by decide
    have e3 : formEncode "true" = "true" := by decide
    have e4 : formEncode "false" = "false" := by decide
    have n1 : ("title" == "completed") = false := by decide
    by_cases h1 : s.taskStatusFilter = "true"
    · by_cases ht : s.taskTitleFilter = "" <;>
        simp [getTaskFilters, h1, ht, e1, e2, e3, n1, List.filter]
    · by_cases h2 : s.taskStatusFilter = "false"
      · by_cases ht : s.taskTitleFilter = "" <;>
          simp [getTaskFilters, h2, ht, e1, e2, e4, n1, List.filter]
      · by_cases ht : s.taskTitleFilter = "" <;>
          simp [getTaskFilters, h1, h2, ht, e1, n1, List.filter]
  · rw [taskParams_eq]
    have n1 : ("title" == "completed") = false := by decide
    by_cases h1 : s.taskStatusFilter = "true"
    · by_cases ht : s.taskTitleFilter = "" <;>
        simp [getTaskFilters, h1, ht, n1, List.filter]
    · by_cases h2 : s.taskStatusFilter = "false"
      · by_cases ht : s.taskTitleFilter = "" <;>
          simp [getTaskFilters, h2, ht, n1, List.filter]
      · by_cases ht : s.taskTitleFilter = "" <;>
          simp [getTaskFilters, h1, h2, ht, n1, List.filter]

theorem bookParams_eq (filters : BookFilters) :
    bookParams filters
      = [("name", filters.name), ("author", filters.author),
          ("publisher", filters.publisher)].filterMap
          (fun f => match f.2 with
            | some v => if v = "" then none else some (f.1, v)
            | none => none) := by
  unfold bookParams
  rcases filters with ⟨name, author, publisher⟩
  rcases name with _ | n <;> rcases author with _ | a <;> rcases publisher with _ | p <;>
    simp [truthy, List.filterMap]
  all_goals (first
    | (by_cases hn : n = "" <;> by_cases ha : a = "" <;> by_cases hp : p = "" <;>
        simp [hn, ha, hp])
    | (by_cases hn : n = "" <;> by_cases ha : a = "" <;> simp [hn, ha])
    | (by_cases hn : n = "" <;> by_cases hp : p = "" <;> simp [hn, hp])
    | (by_cases ha : a = "" <;> by_cases hp : p = "" <;> simp [ha, hp])
    | (by_cases hn : n = "" <;> simp [hn])
    | (by_cases ha : a = "" <;> simp [ha])
    | (by_cases hp : p = "" <;> simp [hp]))

/-- C4: the request `loadBooks(filters)` issues is a GET.  The parameters
it serializes are exactly the non-empty ones among `name`, `author`,
`publisher`, each once, in that order, with the value of the field; the
query of the requested URL reads back as these entries (form-encoded); and
the URL is exactly `/books/`, without `?`, when no field is non-empty. -/
theorem loadBooks_query (filters : BookFilters) (s : State) :
    (loadBooksStart filters s).requests = s.requests ++ [apiRequest (booksUrl filters) {} s]
    ∧ (apiRequest (booksUrl filters) {} s).httpMethod = "GET"
    ∧ (apiRequest (booksUrl filters) {} s).url = booksUrl filters
    ∧ bookParams filters
        = [("name", filters.name), ("author", filters.author),
            ("publisher", filters.publisher)].filterMap
            (fun f => match f.2 with
              | some v => if v = "" then none else some (f.1, v)
              | none => none)
    ∧ booksUrl filters
        = (if bookParams filters = [] then "/books/"
           else "/books/?" ++ (bookParams filters).serialize)
    ∧ queryEntries (booksUrl filters)
        = (bookParams filters).map (fun e => (formEncode e.1, formEncode e.2))
    ∧ (truthy filters.name = false ∧ truthy filters.author = false
        ∧ truthy filters.publisher = false → booksUrl filters = "/books/") := by
  refine ⟨rfl, rfl, rfl, bookParams_eq filters, ?_, ?_, ?_⟩
  · unfold booksUrl
    simp only []
    rw [url_of_params]
    by_cases h : bookParams filters = []
    · simp [h]
    · simp only [h, if_false]
      rfl
  · unfold booksUrl
    simp only []
    exact queryEntries_url _ booksPath_plain _
  · rintro ⟨h1, h2, h3⟩
    simp [booksUrl, bookParams, h1, h2, h3, Params.serialize]

/-- C4 at concrete filters: an empty name is left out, the other two fields
appear in order, and with no non-empty field the URL is the bare path. -/
theorem loadBooks_query_witness :
    booksUrl { name := some "", author := some "George Orwell", publisher := some "S&W" }
      = "/books/?author=George+Orwell&publisher=S%26W"
    ∧ booksUrl { name := some "", author := some "", publisher := none } = "/books/" :=
  ⟨by decide,
   (loadBooks_query { name := some "", author := some "", publisher := none }
      (freshPage none)).2.2.2.2.2.2 ⟨by decide, by decide, by decide⟩⟩

/-! ## Failed auth submissions (C5) -/

/-- What a failed continuation of the login branch changes, from any state. -/
theorem loginDone_failed (eng : Engine) (out : FetchOutcome) (hfail : out.failed = true)
    (t : State) :
    loginDone eng out t
      = { t with authError := match out with
                              | .networkError m => m
                              | .response res => res.text } := by
  cases out with
  | networkError m => rfl
  | response res =>
    have h : res.ok = false := by simpa [FetchOutcome.failed] using hfail
    simp [loginDone, h]

/-- What a failed continuation of the register branch changes, from any state. -/
theorem registerDone_failed (out : FetchOutcome) (hfail : out.failed = true) (t : State) :
    registerDone out t
      = { t with authError := match out with
                              | .networkError m => m
                              | .response res =>
                                if res.text = "" then res.statusText else res.text } := by
  cases out with
  | networkError m => rfl
  | response res =>
    have h : res.ok = false := by simpa [FetchOutcome.failed] using hfail
    by_cases ht : res.text = "" <;> simp [registerDone, apiResult, h, ht]

/-- C5: an auth form submission, in either mode, whose request fails
(network failure or non-success status) leaves the mode, the stored token
and the visibility of both sections as they were, issues the auth request
and nothing else (no load of a panel is started, both panels keep their lists
and error texts), and shows the message of the failure as the auth error:
the message of the network error, the response body text verbatim for a
login, and for a registration the body text or, when that is empty, the
status text. -/
theorem authSubmit_failure (eng : Engine) (username password : String) (out : FetchOutcome)
    (hfail : out.failed = true) (s : State) :
    (authSubmit eng username password out s).mode = s.mode
    ∧ (authSubmit eng username password out s).token = s.token
    ∧ (authSubmit eng username password out s).authHidden = s.authHidden
    ∧ (authSubmit eng username password out s).appHidden = s.appHidden
    ∧ (authSubmit eng username password out s).requests
        = s.requests ++
          [if s.mode = "login" then loginRequest username password
           else apiRequest "/register"
              { method := some "POST"
                body := some [("username", .str username), ("password", .str password)] } s]
    ∧ (authSubmit eng username password out s).bookList = s.bookList
    ∧ (authSubmit eng username password out s).taskList = s.taskList
    ∧ (authSubmit eng username password out s).bookError = s.bookError
    ∧ (authSubmit eng username password out s).taskError = s.taskError
    ∧ (authSubmit eng username password out s).authError
        = (match out with
           | .networkError m => m
           | .response res =>
             if s.mode = "login" then res.text
             else if res.text = "" then res.statusText else res.text) := by
  unfold authSubmit
  by_cases hm : s.mode = "login"
  · simp only [hm, if_true]
    rw [loginDone_failed eng out hfail]
    cases out <;> simp [authSubmitStart, hm]
  · simp only [hm, if_false]
    rw [registerDone_failed out hfail]
    cases out <;> simp [authSubmitStart, hm, apiRequest, apiHeaders, getToken]

/-- C5 at a concrete input: a login refused with status 401. -/
theorem authSubmit_failure_witness :
    (authSubmit plainEngine "ann" "wrong"
        (.response ⟨401, "Unauthorized", "Incorrect username or password",
          .error "Unexpected token 'I'"⟩)
        (freshPage none)).authError
      = "Incorrect username or password" :=
  (authSubmit_failure plainEngine "ann" "wrong"
      (.response ⟨401, "Unauthorized", "Incorrect username or password",
        .error "Unexpected token 'I'"⟩)
      (by decide) (freshPage none)).2.2.2.2.2.2.2.2.2

/-! ## One load of a panel (C6) -/

theorem renderBooks_eq (items : List Obj) (s : State) :
    items.foldl (fun st b => { st with bookList := st.bookList ++ [bookEntry b] }) s
      = { s with bookList := s.bookList ++ items.map bookEntry } := by
  induction items generalizing s with
  | nil => simp
  | cons b rest ih => simp [ih]

theorem renderTasks_eq (eng : Engine) (items : List Obj) (s : State) :
    renderTasks eng items s
      = ({ s with taskList := s.taskList ++ (items.takeWhile (rendersTask eng)).map taskEntry },
         if items.all (rendersTask eng) then none else some eng.cannotSetProperty) := by
  induction items generalizing s with
  | nil => simp [renderTasks]
  | cons t rest ih =>
    unfold renderTasks
    by_cases h1 : eng.querySelector (taskMarkup t) ".complete-task" = true
    · by_cases h2 : eng.querySelector (taskMarkup t) ".delete-task" = true
      · have hr : rendersTask eng t = true := by simp [rendersTask, h1, h2]
        simp [h1, h2, ih, List.takeWhile, hr]
      · have hr : rendersTask eng t = false := by simp [rendersTask, h2]
        simp [h1, h2, List.takeWhile, hr]
    · have hr : rendersTask eng t = false := by simp [rendersTask, h1]
      simp [h1, List.takeWhile, hr]

/-- A completed load of the books: the state it ends in. -/
theorem loadBooks_eq (eng : Engine) (filters : BookFilters) (out : FetchOutcome) (s : State) :
    (∀ m, apiResult out = .error m →
      loadBooks eng filters out s
        = { loadBooksStart filters s with bookError := m })
    ∧ (∀ items, apiResult out = .ok (.arr items) →
      loadBooks eng filters out s
        = { loadBooksStart filters s with bookList := items.map bookEntry }) := by
  constructor
  · intro m h
    simp [loadBooks, loadBooksDone, h]
  · intro items h
    simp [loadBooks, loadBooksDone, h, iterate, renderBooks_eq, loadBooksStart]

/-- A completed load of the tasks: the state it ends in. -/
theorem loadTasks_eq (eng : Engine) (filters : TaskFilters) (out : FetchOutcome) (s : State) :
    (∀ m, apiResult out = .error m →
      loadTasks eng filters out s
        = { loadTasksStart filters s with taskError := m })
    ∧ (∀ items, apiResult out = .ok (.arr items) →
      loadTasks eng filters out s
        = { loadTasksStart filters s with
            taskList := (items.takeWhile (rendersTask eng)).map taskEntry
            taskError := if items.all (rendersTask eng) then "" else eng.cannotSetProperty }) := by
  constructor
  · intro m h
    simp [loadTasks, loadTasksDone, h]
  · intro items h
    by_cases hall : items.all (rendersTask eng) = true
    · simp [loadTasks, loadTasksDone, h, iterate, renderTasks_eq, loadTasksStart, hall]
    · simp [loadTasks, loadTasksDone, h, iterate, renderTasks_eq, loadTasksStart, hall]

set_option maxRecDepth 4096 in
/-- The markup assigned for the task titled with a comment opener: the
opener stands before both buttons and nothing after it closes the comment. -/
theorem taskMarkup_commentTask :
    taskMarkup commentTask
      = "\n        <h3><!--</h3>\n        \n        <div class=\"task-actions\">\n"
        ++ "          <button class=\"complete-task\" data-id=\"1\">\n            Complete\n"
        ++ "          </button>\n          <button class=\"delete-task\" data-id=\"1\">Delete"
        ++ "</button>\n        </div>\n      " := by
  decide

/-- The load of the tasks answered with the one task titled with a comment
opener, on an engine whose lookup does not find the complete button in that
markup: the list stays empty and the error text is the message of the
`TypeError`. -/
theorem loadTasks_commentTask (eng : Engine) (s : State)
    (h : eng.querySelector (taskMarkup commentTask) ".complete-task" = false) :
    (loadTasks eng {} (okResponse "" (.arr [commentTask])) s).taskList = []
    ∧ (loadTasks eng {} (okResponse "" (.arr [commentTask])) s).taskError
        = eng.cannotSetProperty := by
  have hr : rendersTask eng commentTask = false := by simp [rendersTask, h]
  rw [(loadTasks_eq eng {} (okResponse "" (.arr [commentTask])) s).2 [commentTask] rfl]
  simp [List.takeWhile, hr]

/-- C6: what one load of a panel, run with no other load of that panel in
between, leaves behind, whatever the list and the error held before.  When
the request fails the list is empty and the error text is the message of the
failure, for both panels.  When the request succeeds with an array of items,
the book list holds one entry per item in response order and the book error
is empty; the task list holds one entry per item only up to the first item
whose buttons are not found in its own markup, and in that case the task
error is not empty but the message of the `TypeError`. -/
theorem load_panel (eng : Engine) (s : State) (out : FetchOutcome) :
    (∀ filters m, apiResult out = .error m →
      (loadBooks eng filters out s).bookList = []
      ∧ (loadBooks eng filters out s).bookError = m)
    ∧ (∀ filters items, apiResult out = .ok (.arr items) →
      (loadBooks eng filters out s).bookList = items.map bookEntry
      ∧ (loadBooks eng filters out s).bookError = "")
    ∧ (∀ filters m, apiResult out = .error m →
      (loadTasks eng filters out s).taskList = []
      ∧ (loadTasks eng filters out s).taskError = m)
    ∧ (∀ filters items, apiResult out = .ok (.arr items) →
      (loadTasks eng filters out s).taskList
          = (items.takeWhile (rendersTask eng)).map taskEntry
      ∧ (loadTasks eng filters out s).taskError
          = if items.all (rendersTask eng) then "" else eng.cannotSetProperty) := by
  refine ⟨?_, ?_, ?_, ?_⟩
  · intro filters m h
    rw [(loadBooks_eq eng filters out s).1 m h]
    simp [loadBooksStart]
  · intro filters items h
    rw [(loadBooks_eq eng filters out s).2 items h]
    simp [loadBooksStart]
  · intro filters m h
    rw [(loadTasks_eq eng filters out s).1 m h]
    simp [loadTasksStart]
  · intro filters items h
    rw [(loadTasks_eq eng filters out s).2 items h]
    simp [loadTasksStart]

/-! ## Two overlapping loads of a panel (C7) -/

/-- C7, counterexample: two loads of the books are started, then the two
responses arrive, the first with one book and the second with another.  The
rendered list holds the entries of both responses, not only those of the
response that arrived last. -/
theorem overlapping_loads_counterexample :
    (loadBooksDone plainEngine
        (okResponse "[\x7b\"id\":2,\"book_name\":\"Emma\"\x7d]"
          (.arr [[("id", .num 2), ("book_name", .str "Emma")]]))
        (loadBooksDone plainEngine
          (okResponse "[\x7b\"id\":1,\"book_name\":\"Persuasion\"\x7d]"
            (.arr [[("id", .num 1), ("book_name", .str "Persuasion")]]))
          (loadBooksStart {} (loadBooksStart {} (freshPage (some "t")))))).bookList
      = [bookEntry [("id", .num 1), ("book_name", .str "Persuasion")],
         bookEntry [("id", .num 2), ("book_name", .str "Emma")]]
    ∧ [bookEntry [("id", .num 1), ("book_name", .str "Persuasion")],
         bookEntry [("id", .num 2), ("book_name", .str "Emma")]]
      ≠ [bookEntry [("id", .num 2), ("book_name", .str "Emma")]] := by
  constructor
  · rfl
  · decide

theorem loadBooksDone_arr (eng : Engine) (out : FetchOutcome) (items : List Obj)
    (h : apiResult out = .ok (.arr items)) (s : State) :
    loadBooksDone eng out s = { s with bookList := s.bookList ++ items.map bookEntry } := by
  simp [loadBooksDone, h, iterate, renderBooks_eq]

theorem loadTasksDone_arr (eng : Engine) (out : FetchOutcome) (items : List Obj)
    (h : apiResult out = .ok (.arr items)) (hr : ∀ t ∈ items, rendersTask eng t = true)
    (s : State) :
    loadTasksDone eng out s = { s with taskList := s.taskList ++ items.map taskEntry } := by
  have hall : items.all (rendersTask eng) = true := by simpa using hr
  have htake : items.takeWhile (rendersTask eng) = items := by
    rw [List.takeWhile_eq_self_iff]
    exact hr
  simp [loadTasksDone, h, iterate, renderTasks_eq, hall, htake]

/-- C7, amended: when two loads of a panel are both started before either
response arrives and both requests succeed with arrays of records, the list
rendered after both completions holds the entries of the response that
arrived first followed by the entries of the response that arrived last,
whichever of the two loads each answers; each completion appends to what the
other rendered.
(For the tasks: given that the buttons of every item are found in its
markup.) -/
theorem overlapping_loads (eng : Engine) (s : State)
    (f1 f2 : BookFilters) (first last : FetchOutcome) (booksFirst booksLast : List Obj)
    (g1 g2 : TaskFilters) (tfirst tlast : FetchOutcome) (tasksFirst tasksLast : List Obj)
    (hb1 : apiResult first = .ok (.arr booksFirst))
    (hb2 : apiResult last = .ok (.arr booksLast))
    (ht1 : apiResult tfirst = .ok (.arr tasksFirst))
    (ht2 : apiResult tlast = .ok (.arr tasksLast))
    (hr1 : ∀ t ∈ tasksFirst, rendersTask eng t = true)
    (hr2 : ∀ t ∈ tasksLast, rendersTask eng t = true) :
    (loadBooksDone eng last (loadBooksDone eng first
        (loadBooksStart f2 (loadBooksStart f1 s)))).bookList
      = booksFirst.map bookEntry ++ booksLast.map bookEntry
    ∧ (loadTasksDone eng tlast (loadTasksDone eng tfirst
        (loadTasksStart g2 (loadTasksStart g1 s)))).taskList
      = tasksFirst.map taskEntry ++ tasksLast.map taskEntry := by
  constructor
  · rw [loadBooksDone_arr eng last booksLast hb2, loadBooksDone_arr eng first booksFirst hb1]
    simp [loadBooksStart]
  · rw [loadTasksDone_arr eng tlast tasksLast ht2 hr2,
      loadTasksDone_arr eng tfirst tasksFirst ht1 hr1]
    simp [loadTasksStart]

/-- C7, amended claim at a concrete input: one book and one task in each
response. -/
theorem overlapping_loads_witness :
    (loadBooksDone plainEngine (okResponse "" (.arr [[("id", .num 2)]]))
      (loadBooksDone plainEngine (okResponse "" (.arr [[("id", .num 1)]]))
        (loadBooksStart {} (loadBooksStart {} (freshPage (some "t")))))).bookList
      = [[("id", .num 1)]].map bookEntry ++ [[("id", .num 2)]].map bookEntry
    ∧ (loadTasksDone plainEngine (okResponse "" (.arr [[("id", .num 4)]]))
      (loadTasksDone plainEngine (okResponse "" (.arr [[("id", .num 3)]]))
        (loadTasksStart {} (loadTasksStart {} (freshPage (some "t")))))).taskList
      = [[("id", .num 3)]].map taskEntry ++ [[("id", .num 4)]].map taskEntry :=
  overlapping_loads plainEngine (freshPage (some "t")) {} {}
    (okResponse "" (.arr [[("id", .num 1)]])) (okResponse "" (.arr [[("id", .num 2)]]))
    [[("id", .num 1)]] [[("id", .num 2)]] {} {}
    (okResponse "" (.arr [[("id", .num 3)]])) (okResponse "" (.arr [[("id", .num 4)]]))
    [[("id", .num 3)]] [[("id", .num 4)]] rfl rfl rfl rfl
    (by intro t ht; rfl) (by intro t ht; rfl)

/-! ## The reload after a create (C8) -/

/-- C8, counterexample.  First session: the displayed book list was loaded
unfiltered (the only load of the books so far requested `/books/`), the
author filter field was edited but not applied, and a book is created; the
reload that follows the successful POST requests `/books/?author=Orwell`.
Second session: the filter `author=Orwell` was applied and the displayed list
came back for it, the field was then erased without applying, and a book is
created; the reload requests `/books/`, unfiltered.  In both the URL is built
from the present content of the filter fields, not from the filters last
applied. -/
theorem create_reload_counterexample :
    loadUrls "/books/" editedFilterSession.requests = ["/books/"]
    ∧ loadUrls "/books/"
        (bookSubmitDone (okResponse "" (.obj [("id", .num 1)])) editedFilterSession).requests
        = ["/books/", "/books/?author=Orwell"]
    ∧ loadUrls "/books/" erasedFilterSession.requests = ["/books/", "/books/?author=Orwell"]
    ∧ loadUrls "/books/"
        (bookSubmitDone (okResponse "" (.obj [("id", .num 2)])) erasedFilterSession).requests
        = ["/books/", "/books/?author=Orwell", "/books/"] := by
  refine ⟨by decide, by decide, by decide, by decide⟩

/-- C8, amended: after every successful create of a book (resp. task) the
list is reloaded, and the GET that follows the POST is for the URL the load
builds from the values the filter fields hold when the POST succeeds
(`getBookFilters`, resp. `getTaskFilters`, read at that moment), whether or
not those values were applied before. -/
theorem create_reload (out : FetchOutcome) (value : Json) (hok : apiResult out = .ok value)
    (s : State) :
    (bookSubmitDone out s).requests
        = s.requests ++ [apiRequest (booksUrl (getBookFilters s)) {} s]
    ∧ (apiRequest (booksUrl (getBookFilters s)) {} s).httpMethod = "GET"
    ∧ bookParams (getBookFilters s)
        = (if s.nameFilter = "" then [] else [("name", s.nameFilter)])
          ++ (if s.authorFilter = "" then [] else [("author", s.authorFilter)])
          ++ (if s.publisherFilter = "" then [] else [("publisher", s.publisherFilter)])
    ∧ (taskSubmitDone out s).requests
        = s.requests ++ [apiRequest (tasksUrl (getTaskFilters s)) {} s]
    ∧ (apiRequest (tasksUrl (getTaskFilters s)) {} s).httpMethod = "GET"
    ∧ taskParams (getTaskFilters s)
        = (if s.taskTitleFilter = "" then [] else [("title", s.taskTitleFilter)])
          ++ (if s.taskStatusFilter = "true" then [("completed", "true")]
              else if s.taskStatusFilter = "false" then [("completed", "false")]
              else []) := by
  refine ⟨?_, rfl, ?_, ?_, rfl, ?_⟩
  · simp [bookSubmitDone, hok, loadBooksStart, apiRequest, apiHeaders, getToken]
  · rw [bookParams_eq]
    by_cases hn : s.nameFilter = "" <;> by_cases ha : s.authorFilter = "" <;>
      by_cases hp : s.publisherFilter = "" <;>
      simp [getBookFilters, List.filterMap, hn, ha, hp]
  · simp [taskSubmitDone, hok, loadTasksStart, apiRequest, apiHeaders, getToken]
  · rw [taskParams_eq]
    by_cases ht : s.taskTitleFilter = "" <;> by_cases h1 : s.taskStatusFilter = "true" <;>
      by_cases h2 : s.taskStatusFilter = "false" <;>
      simp [getTaskFilters, ht, h1, h2]

/-- C8, amended claim at a concrete input: the session of the
counterexample. -/
theorem create_reload_witness :
    (bookSubmitDone (okResponse "" (.obj [("id", .num 1)])) editedFilterSession).requests
      = editedFilterSession.requests
        ++ [apiRequest (booksUrl (getBookFilters editedFilterSession)) {} editedFilterSession] :=
  (create_reload (okResponse "" (.obj [("id", .num 1)])) (.obj [("id", .num 1)]) rfl
    editedFilterSession).1

/-! ## Logout and initialisation (C9) -/

/-- C9, counterexample: the page is initialised with the empty string stored
as the token.  A token is stored, yet the auth section is shown, the app
section is hidden and no load is started. -/
theorem init_empty_token_counterexample :
    getToken (freshPage (some "")) = some ""
    ∧ (init (freshPage (some ""))).authHidden = false
    ∧ (init (freshPage (some ""))).appHidden = true
    ∧ (init (freshPage (some ""))).requests = [] := by
  decide

/-- C9, amended: from every state, logout leaves the token store empty,
shows the auth section, hides the app section and issues no request.  Page
initialisation shows the auth section and starts no load when no token or
the empty string is stored; with a non-empty stored token it shows the app
section and starts the load of the books and then the load of the tasks,
both unfiltered.  After `showAuth`, exactly one of the two sections is
hidden. -/
theorem logout_and_init (s : State) :
    (getToken (logout s) = none
      ∧ (logout s).authHidden = false ∧ (logout s).appHidden = true
      ∧ (logout s).requests = s.requests)
    ∧ (getToken s = none ∨ getToken s = some "" →
        (init s).authHidden = false ∧ (init s).appHidden = true
        ∧ (init s).requests = s.requests
        ∧ (init s).bookList = s.bookList ∧ (init s).taskList = s.taskList)
    ∧ (∀ t, getToken s = some t → t ≠ "" →
        (init s).authHidden = true ∧ (init s).appHidden = false
        ∧ (init s).requests
            = s.requests ++ [apiRequest "/books/" {} s, apiRequest "/tasks/" {} s]
        ∧ (apiRequest "/books/" {} s).httpMethod = "GET"
        ∧ (apiRequest "/tasks/" {} s).httpMethod = "GET"
        ∧ (init s).bookList = [] ∧ (init s).taskList = [])
    ∧ (∀ b, ((showAuth b s).authHidden = true ∧ (showAuth b s).appHidden = false)
          ∨ ((showAuth b s).authHidden = false ∧ (showAuth b s).appHidden = true)) := by
  refine ⟨⟨rfl, rfl, rfl, rfl⟩, ?_, ?_, ?_⟩
  · intro h
    have ht : truthy (getToken s) = false := by
      rcases h with h | h <;> simp [h, truthy]
    simp [init, ht, showAuth]
  · intro t ht hne
    have htr : truthy (getToken s) = true := by simp [ht, truthy, hne]
    have ht' : s.token = some t := ht
    simp only [init, htr, if_true]
    simp [showAuth, loadBooksStart, loadTasksStart, booksUrl, tasksUrl, bookParams,
      taskParams, truthy, Params.serialize, apiRequest, apiHeaders, getToken, Request.httpMethod,
      ht', hne]
  · intro b
    cases b <;> simp [showAuth]

/-- C9, amended claim at a concrete input: initialisation with the stored
token `t`. -/
theorem logout_and_init_witness :
    (init (freshPage (some "t"))).authHidden = true
    ∧ (init (freshPage (some "t"))).appHidden = false
    ∧ ((init (freshPage (some "t"))).requests.map fun r => (r.httpMethod, r.url, r.headers))
        = [("GET", "/books/", [("Content-Type", "application/json"), ("Authorization", "Bearer t")]),
           ("GET", "/tasks/", [("Content-Type", "application/json"), ("Authorization", "Bearer t")])] :=
  ⟨((logout_and_init (freshPage (some "t"))).2.2.1 "t" rfl (by decide)).1,
   ((logout_and_init (freshPage (some "t"))).2.2.1 "t" rfl (by decide)).2.1,
   by decide⟩

/-! ## The auth mode and its labels (C10) -/

/-- C10, counterexample: from the initial page, a click on the toggle, a
submission and the arrival of a successful registration.  The last event is
not a toggle and changes the mode from `register` to `login`; afterwards the
mode is `login` and the toggle link reads `Login`, not `Register`. -/
theorem auth_labels_counterexample :
    (runAuth plainEngine [.toggle, .submit "ann" "pw"] (freshPage none)).mode = "register"
    ∧ (runAuth plainEngine
        [.toggle, .submit "ann" "pw", .registerOutcome (okResponse "null" (.prim .null))]
        (freshPage none)).mode = "login"
    ∧ (runAuth plainEngine
        [.toggle, .submit "ann" "pw", .registerOutcome (okResponse "null" (.prim .null))]
        (freshPage none)).toggleLink = "Login" := by
  decide

theorem loginDone_auth (eng : Engine) (out : FetchOutcome) (s : State) :
    (loginDone eng out s).mode = s.mode
    ∧ (loginDone eng out s).authTitle = s.authTitle
    ∧ (loginDone eng out s).authButton = s.authButton
    ∧ (loginDone eng out s).toggleLink = s.toggleLink := by
  unfold loginDone
  cases out with
  | networkError m => simp
  | response res =>
    simp only []
    split
    · simp
    · split
      · simp
      · split
        · simp
        · simp [setToken, showAuth, loadBooksStart, loadTasksStart]

theorem registerDone_auth (out : FetchOutcome) (s : State) :
    ((apiResult out).toBool = false →
        (registerDone out s).mode = s.mode
        ∧ (registerDone out s).authTitle = s.authTitle
        ∧ (registerDone out s).authButton = s.authButton
        ∧ (registerDone out s).toggleLink = s.toggleLink)
    ∧ ((apiResult out).toBool = true →
        (registerDone out s).mode = "login"
        ∧ (registerDone out s).authTitle = "Login"
        ∧ (registerDone out s).authButton = "Login"
        ∧ (registerDone out s).toggleLink = s.toggleLink) := by
  unfold registerDone
  cases h : apiResult out with
  | error m => simp [Except.toBool]
  | ok v => simp [Except.toBool]

theorem step_modeLabels (eng : Engine) (e : AuthEvent) (s : State) (h : ModeLabels s) :
    ModeLabels (e.step eng s) := by
  cases e with
  | toggle =>
    rcases h with ⟨hm | hm, -, -⟩ <;>
      simp [AuthEvent.step, toggleAuthClick, ModeLabels, hm]
  | submit u p =>
    have e1 : (authSubmitStart u p s).mode = s.mode := by
      unfold authSubmitStart; simp only []; split <;> rfl
    have e2 : (authSubmitStart u p s).authTitle = s.authTitle := by
      unfold authSubmitStart; simp only []; split <;> rfl
    have e3 : (authSubmitStart u p s).authButton = s.authButton := by
      unfold authSubmitStart; simp only []; split <;> rfl
    simpa [AuthEvent.step, ModeLabels, e1, e2, e3] using h
  | loginOutcome out =>
    obtain ⟨e1, e2, e3, -⟩ := loginDone_auth eng out s
    simpa [AuthEvent.step, ModeLabels, e1, e2, e3] using h
  | registerOutcome out =>
    cases hb : (apiResult out).toBool with
    | false =>
      obtain ⟨e1, e2, e3, -⟩ := (registerDone_auth out s).1 hb
      simpa [AuthEvent.step, ModeLabels, e1, e2, e3] using h
    | true =>
      obtain ⟨e1, e2, e3, -⟩ := (registerDone_auth out s).2 hb
      simp [AuthEvent.step, ModeLabels, e1, e2, e3]

theorem step_linkLabel (eng : Engine) (e : AuthEvent) (s : State) (h : LinkLabel s)
    (he : e.registered = false) : LinkLabel (e.step eng s) := by
  cases e with
  | toggle => simp [AuthEvent.step, toggleAuthClick, LinkLabel]
  | submit u p =>
    have e1 : (authSubmitStart u p s).mode = s.mode := by
      unfold authSubmitStart; simp only []; split <;> rfl
    have e2 : (authSubmitStart u p s).toggleLink = s.toggleLink := by
      unfold authSubmitStart; simp only []; split <;> rfl
    simpa [AuthEvent.step, LinkLabel, e1, e2] using h
  | loginOutcome out =>
    obtain ⟨e1, -, -, e4⟩ := loginDone_auth eng out s
    simpa [AuthEvent.step, LinkLabel, e1, e4] using h
  | registerOutcome out =>
    have hb : (apiResult out).toBool = false := he
    obtain ⟨e1, -, -, e4⟩ := (registerDone_auth out s).1 hb
    simpa [AuthEvent.step, LinkLabel, e1, e4] using h

theorem runAuth_modeLabels (eng : Engine) (events : List AuthEvent) (s : State)
    (h : ModeLabels s) : ModeLabels (runAuth eng events s) := by
  induction events generalizing s with
  | nil => exact h
  | cons e es ih => exact ih _ (step_modeLabels eng e s h)

theorem runAuth_snoc (eng : Engine) (events : List AuthEvent) (e : AuthEvent) (s : State) :
    runAuth eng (events ++ [e]) s = e.step eng (runAuth eng events s) := by
  simp [runAuth, List.foldl_append]

theorem toggle_linkLabel (s : State) : LinkLabel (toggleAuthClick s) := by
  simp [toggleAuthClick, LinkLabel]

/-- The toggle link carries the label of the mode whenever every registration
that succeeded in register mode was followed by a toggle. -/
theorem runAuth_linkLabel (eng : Engine) (events : List AuthEvent) (s : State)
    (hI : ModeLabels s) (hL : LinkLabel s) :
    (∀ pre out post, events = pre ++ AuthEvent.registerOutcome out :: post →
        (apiResult out).toBool = true → (runAuth eng pre s).mode = "register" →
        AuthEvent.toggle ∈ post) →
    LinkLabel (runAuth eng events s) := by
  induction events using List.reverseRecOn with
  | nil => intro _; exact hL
  | append_singleton es e ih =>
    intro h
    rw [runAuth_snoc]
    cases e with
    | toggle => exact toggle_linkLabel _
    | submit u p =>
      have hes : ∀ pre out post, es = pre ++ AuthEvent.registerOutcome out :: post →
          (apiResult out).toBool = true → (runAuth eng pre s).mode = "register" →
          AuthEvent.toggle ∈ post := by
        intro pre out post hsplit hok hmode
        have := h pre out (post ++ [.submit u p]) (by simp [hsplit]) hok hmode
        simpa using this
      exact step_linkLabel eng _ _ (ih hes) rfl
    | loginOutcome o =>
      have hes : ∀ pre out post, es = pre ++ AuthEvent.registerOutcome out :: post →
          (apiResult out).toBool = true → (runAuth eng pre s).mode = "register" →
          AuthEvent.toggle ∈ post := by
        intro pre out post hsplit hok hmode
        have := h pre out (post ++ [.loginOutcome o]) (by simp [hsplit]) hok hmode
        simpa using this
      exact step_linkLabel eng _ _ (ih hes) rfl
    | registerOutcome o =>
      have hes : ∀ pre out post, es = pre ++ AuthEvent.registerOutcome out :: post →
          (apiResult out).toBool = true → (runAuth eng pre s).mode = "register" →
          AuthEvent.toggle ∈ post := by
        intro pre out post hsplit hok hmode
        have := h pre out (post ++ [.registerOutcome o]) (by simp [hsplit]) hok hmode
        simpa using this
      cases hb : (apiResult o).toBool with
      | false => exact step_linkLabel eng _ _ (ih hes) hb
      | true =>
        rcases (runAuth_modeLabels eng es s hI).1 with hm | hm
        · obtain ⟨e1, -, -, e4⟩ := (registerDone_auth o (runAuth eng es s)).2 hb
          have hl := ih hes
          simp only [LinkLabel, hm, if_true] at hl
          simp [AuthEvent.step, LinkLabel, e1, e4, hl]
        · have := h es o [] (by simp) hb hm
          simp at this

theorem step_mode_change (eng : Engine) (e : AuthEvent) (s : State)
    (h : (e.step eng s).mode ≠ s.mode) : e = .toggle ∨ e.registered = true := by
  cases e with
  | toggle => exact Or.inl rfl
  | submit u p =>
    exfalso; apply h
    unfold AuthEvent.step authSubmitStart; simp only []; split <;> rfl
  | loginOutcome out => exact absurd (loginDone_auth eng out s).1 h
  | registerOutcome out =>
    right
    cases hb : (apiResult out).toBool with
    | true => exact hb
    | false =>
      exact absurd ((registerDone_auth out s).1 hb).1 h

theorem toggle_twice (s : State) (h : ModeLabels s) :
    (toggleAuthClick (toggleAuthClick s)).mode = s.mode
    ∧ (toggleAuthClick (toggleAuthClick s)).authTitle = s.authTitle
    ∧ (toggleAuthClick (toggleAuthClick s)).authButton = s.authButton
    ∧ (LinkLabel s → (toggleAuthClick (toggleAuthClick s)).toggleLink = s.toggleLink) := by
  obtain ⟨hm, ht, hb⟩ := h
  rcases hm with hm | hm
  · simp only [toggleAuthClick, hm, ht, hb, LinkLabel]
    refine ⟨by decide, by decide, by decide, fun h => ?_⟩
    rw [h]; decide
  · simp only [toggleAuthClick, hm, ht, hb, LinkLabel]
    refine ⟨by decide, by decide, by decide, fun h => ?_⟩
    rw [h]; decide

/-- C10, amended: starting from the initial state (mode login, title
`Login`, submit button `Login`, toggle link `Register`), after every finite
sequence of toggle clicks, auth form submissions and arrivals of their
outcomes (successes or failures), the mode is either login or register and
the title and the button are those of the current mode (`Login`/`Login` in
login mode, `Register`/`Sign Up` in register mode); the toggle link is that
of the current mode (`Register`, resp. `Login`) unless a registration has
succeeded in register mode since the last toggle; the mode changes only
through the toggle and through a successful registration, which sets it to
login; and two consecutive toggles restore the mode, the title and the
button, and the toggle link whenever it was that of the mode. -/
theorem auth_labels (eng : Engine) (events : List AuthEvent) (s0 : State)
    (h0 : s0.mode = "login" ∧ s0.authTitle = "Login" ∧ s0.authButton = "Login"
      ∧ s0.toggleLink = "Register") :
    ((runAuth eng events s0).mode = "login" ∨ (runAuth eng events s0).mode = "register")
    ∧ (runAuth eng events s0).authTitle
        = (if (runAuth eng events s0).mode = "login" then "Login" else "Register")
    ∧ (runAuth eng events s0).authButton
        = (if (runAuth eng events s0).mode = "login" then "Login" else "Sign Up")
    ∧ ((∀ pre out post, events = pre ++ AuthEvent.registerOutcome out :: post →
          (apiResult out).toBool = true → (runAuth eng pre s0).mode = "register" →
          AuthEvent.toggle ∈ post) →
        (runAuth eng events s0).toggleLink
          = (if (runAuth eng events s0).mode = "login" then "Register" else "Login"))
    ∧ (∀ e : AuthEvent, (e.step eng (runAuth eng events s0)).mode ≠ (runAuth eng events s0).mode →
        (e = .toggle ∨ e.registered = true)
        ∧ (e.registered = true → (e.step eng (runAuth eng events s0)).mode = "login"))
    ∧ (toggleAuthClick (toggleAuthClick (runAuth eng events s0))).mode
        = (runAuth eng events s0).mode
    ∧ (toggleAuthClick (toggleAuthClick (runAuth eng events s0))).authTitle
        = (runAuth eng events s0).authTitle
    ∧ (toggleAuthClick (toggleAuthClick (runAuth eng events s0))).authButton
        = (runAuth eng events s0).authButton
    ∧ ((runAuth eng events s0).toggleLink
          = (if (runAuth eng events s0).mode = "login" then "Register" else "Login") →
        (toggleAuthClick (toggleAuthClick (runAuth eng events s0))).toggleLink
          = (runAuth eng events s0).toggleLink) := by
  obtain ⟨hm, ht, hb, hl⟩ := h0
  have hI0 : ModeLabels s0 := by simp [ModeLabels, hm, ht, hb]
  have hL0 : LinkLabel s0 := by simp [LinkLabel, hm, hl]
  have hI := runAuth_modeLabels eng events s0 hI0
  have h2 := toggle_twice _ hI
  refine ⟨hI.1, hI.2.1, hI.2.2, ?_, ?_, h2.1, h2.2.1, h2.2.2.1, ?_⟩
  · intro he
    exact runAuth_linkLabel eng events s0 hI0 hL0 he
  · intro e hne
    refine ⟨step_mode_change eng e _ hne, ?_⟩
    intro hr
    cases e with
    | registerOutcome out => exact ((registerDone_auth out _).2 hr).1
    | toggle => simp [AuthEvent.registered] at hr
    | submit u p => simp [AuthEvent.registered] at hr
    | loginOutcome out => simp [AuthEvent.registered] at hr
  · intro hl'
    exact h2.2.2.2 hl'

/-- C10, amended claim at a concrete input: from the initial page, a toggle,
a submission, the arrival of a successful registration and a second toggle.
The registration succeeded in register mode and a toggle followed it, so the
toggle link is that of the mode again. -/
theorem auth_labels_witness :
    (runAuth plainEngine
      [.toggle, .submit "ann" "pw", .registerOutcome (okResponse "null" (.prim .null)), .toggle]
      (freshPage none)).toggleLink
      = (if (runAuth plainEngine
          [.toggle, .submit "ann" "pw", .registerOutcome (okResponse "null" (.prim .null)),
           .toggle] (freshPage none)).mode = "login"
         then "Register" else "Login") :=
  (auth_labels plainEngine
    [.toggle, .submit "ann" "pw", .registerOutcome (okResponse "null" (.prim .null)), .toggle]
    (freshPage none) ⟨rfl, rfl, rfl, rfl⟩).2.2.2.1
    (by
      intro pre out post hsplit _ _
      rcases pre with _ | ⟨a, _ | ⟨b, _ | ⟨c, _ | ⟨d, pre⟩⟩⟩⟩ <;> simp at hsplit
      obtain ⟨-, -, -, hpost⟩ := hsplit
      rw [← hpost]
      simp)

end ArgApi
